import Mathlib

/-!
Verification of the cache_check metadata checker (cache_check.cc) against its
specification.  The checker's data model — error states, damage reports, the
reporter classes, the flag set — and its operations (`metadata_check`, `check`,
`check_with_exception_handling`, `clear_needs_check`) are embedded shallowly as
executable Lean functions; theorems below settle the spec's claims about them.

A `device` value abstracts one concrete input: the path's stat outcome and file
kind, the file length and opening bytes, the superblock fields, and the damage
reports the library walks (check_superblock, check_mapping_array, hint_array's
check) would deliver to the checker's visitors on that input.  Those library
walks, `combine_errors`, `check_for_xml` and the superblock read/write protocol
live outside the examined sources, so they are modelled from the spec's words,
each marked `Modelled from the spec` in its doc comment; everything else is a
direct translation of cache_check.cc.
-/

namespace CacheCheck

/-- The three-level error severity from base/error_state.h
(`NO_ERROR`, `NON_FATAL`, `FATAL`). -/
inductive error_state where
  | NO_ERROR : error_state
  | NON_FATAL : error_state
  | FATAL : error_state
deriving DecidableEq

/-- Rank of an error state in the total order NO_ERROR < NON_FATAL < FATAL. -/
def error_rank : error_state → Nat
  | error_state.NO_ERROR => 0
  | error_state.NON_FATAL => 1
  | error_state.FATAL => 2

/-- Modelled from the spec: `combine_errors` is declared in base/error_state.h,
which is not among the examined sources; the spec states the error states form
a lattice NO_ERROR < NON_FATAL < FATAL joined by max, and that `combine` is the
max over that total order. -/
def combine_errors (lhs rhs : error_state) : error_state :=
  if error_rank lhs < error_rank rhs then rhs else lhs

/-- reporter_base::mplus_error (cache_check.cc lines 56-58):
`err_ = combine_errors(err_, err)`. -/
def mplus_error (err e : error_state) : error_state :=
  combine_errors err e

/-- The nested_output sink: whether output is enabled, and the messages
written so far (indentation, an out-of-scope formatting concern, is dropped). -/
structure nested_output where
  enabled : Bool
  msgs : List String
deriving DecidableEq

/-- Writing a message to a nested_output: appended when enabled, dropped
when disabled. -/
def nested_output.out (o : nested_output) (m : String) : nested_output :=
  if o.enabled then { o with msgs := o.msgs ++ [m] } else o

/-- nested_output::disable, as called by metadata_check when quiet is set. -/
def nested_output.disable (o : nested_output) : nested_output :=
  { o with enabled := false }

/-- Superblock damage reports (superblock_damage namespace of the caching
library): corrupt or invalid, each carrying a description. -/
inductive superblock_damage where
  | superblock_corrupt : String → superblock_damage
  | superblock_invalid : String → superblock_damage
deriving DecidableEq

/-- Mapping-array damage reports: missing_mappings (with the missing keys) or
invalid_mapping (with the cache block, origin block and flags of the bad
entry). -/
inductive mapping_array_damage where
  | missing_mappings : List Nat → String → mapping_array_damage
  | invalid_mapping : String → Nat → Nat → Nat → mapping_array_damage
deriving DecidableEq

/-- Hint-array damage reports: missing_hints with the missing keys. -/
inductive hint_array_damage where
  | missing_hints : List Nat → String → hint_array_damage
deriving DecidableEq

/-- Bitset damage reports: missing_bits with the missing keys. -/
inductive bitset_damage where
  | missing_bits : List Nat → bitset_damage
deriving DecidableEq

/-- superblock_reporter's visits (cache_check.cc lines 71-89): the effect of
one visit on the reporter's accumulated error state.  Both visit bodies end in
`mplus_error(FATAL)`. -/
def superblock_reporter.visit_err (st : error_state) (_ : superblock_damage) :
    error_state :=
  mplus_error st error_state.FATAL

/-- superblock_reporter's visits: the messages one visit writes. -/
def superblock_reporter.visit_out (o : nested_output) :
    superblock_damage → nested_output
  | superblock_damage.superblock_corrupt desc =>
      (o.out "superblock is corrupt").out desc
  | superblock_damage.superblock_invalid desc =>
      (o.out "superblock is invalid").out desc

/-- mapping_reporter's visits (cache_check.cc lines 100-122): every visit,
missing_mappings and invalid_mapping alike, ends in `mplus_error(FATAL)`. -/
def mapping_reporter.visit_err (st : error_state) (_ : mapping_array_damage) :
    error_state :=
  mplus_error st error_state.FATAL

/-- mapping_reporter's visits: the messages one visit writes. -/
def mapping_reporter.visit_out (o : nested_output) :
    mapping_array_damage → nested_output
  | mapping_array_damage.missing_mappings keys desc =>
      ((o.out ("missing mappings " ++ toString keys ++ ":")).out desc)
  | mapping_array_damage.invalid_mapping desc cblock oblock fl =>
      ((o.out "invalid mapping:").out
        (desc ++ " [cblock = " ++ toString cblock ++ ", oblock = " ++
         toString oblock ++ ", flags = " ++ toString fl ++ "]"))

/-- hint_reporter's visit (cache_check.cc lines 133-141): ends in
`mplus_error(FATAL)`. -/
def hint_reporter.visit_err (st : error_state) (_ : hint_array_damage) :
    error_state :=
  mplus_error st error_state.FATAL

/-- hint_reporter's visit: the messages it writes. -/
def hint_reporter.visit_out (o : nested_output) :
    hint_array_damage → nested_output
  | hint_array_damage.missing_hints keys desc =>
      (o.out ("missing mappings " ++ toString keys ++ ":")).out desc

/-- discard_reporter's missing_bits visit (cache_check.cc lines 156-159):
ends in `mplus_error(FATAL)`.  (Its per-bit visit is a no-op.) -/
def discard_reporter.visit_err (st : error_state) (_ : bitset_damage) :
    error_state :=
  mplus_error st error_state.FATAL

/-- discard_reporter's missing_bits visit: the message it writes. -/
def discard_reporter.visit_out (o : nested_output) :
    bitset_damage → nested_output
  | bitset_damage.missing_bits keys =>
      o.out ("missing discard bits " ++ toString keys)

/-- Modelled from the spec: `check_superblock` (caching library, not among the
examined sources) validates the superblock and delivers each damage report it
finds to the supplied damage visitor; the visitor here is the
superblock_reporter, whose visit behaviour is taken from cache_check.cc. -/
def check_superblock (p : error_state × nested_output)
    (ds : List superblock_damage) : error_state × nested_output :=
  ds.foldl
    (fun q d =>
      (superblock_reporter.visit_err q.1 d, superblock_reporter.visit_out q.2 d))
    p

/-- Modelled from the spec: `check_mapping_array` (caching library, not among
the examined sources) walks every index in [0, cache_blocks) and delivers each
damage report to the supplied visitor, here the mapping_reporter of
cache_check.cc. -/
def check_mapping_array (p : error_state × nested_output)
    (ds : List mapping_array_damage) : error_state × nested_output :=
  ds.foldl
    (fun q d =>
      (mapping_reporter.visit_err q.1 d, mapping_reporter.visit_out q.2 d))
    p

/-- Modelled from the spec: `hint_array::check` (caching library, not among the
examined sources) walks the hint array and delivers each damage report to the
supplied visitor, here the hint_reporter of cache_check.cc. -/
def hint_array.check (p : error_state × nested_output)
    (ds : List hint_array_damage) : error_state × nested_output :=
  ds.foldl
    (fun q d =>
      (hint_reporter.visit_err q.1 d, hint_reporter.visit_out q.2 d))
    p

/-- The flag set of cache_check.cc (lines 175-191), with the constructor's
defaults. -/
structure flags where
  check_mappings : Bool := true
  check_hints : Bool := true
  check_discards : Bool := true
  ignore_non_fatal_errors : Bool := false
  quiet : Bool := false
  clear_needs_check_on_success : Bool := false
deriving DecidableEq

/-- The superblock fields metadata_check reads, together with the raw pieces
of block 0 the spec lays out (checksum word, magic, the flag word's other
bits) so that the clear-needs-check frame property is statable.  A root value
of 0 encodes an absent optional root, as in the source's `if (!sb.hint_root)`
tests. -/
structure superblock where
  csum : Nat
  magic : Nat
  version : Nat
  flags_needs_check : Bool
  other_flags : Nat
  mapping_root : Nat
  hint_root : Nat
  discard_root : Nat
  dirty_root : Nat
  cache_blocks : Nat
  discard_nr_blocks : Nat
  policy_hint_size : Nat
deriving DecidableEq

/-- One concrete input to the checker: the stat outcome and file kind of the
path, the file length and opening bytes, the superblock stored in block 0, and
the damage reports each library walk would deliver on this input.
`mapping_walk_error` models an I/O error thrown out of the mapping-array walk.
`dirty_bits_damage` and `discard_bits_damage` describe damage present in the
dirty and discard bitsets on the medium. -/
structure device where
  path : String
  stat_error : Option String
  is_reg : Bool
  is_blk : Bool
  file_length : Nat
  opening_bytes : List Nat
  sb_damage : List superblock_damage
  sb : superblock
  mapping_damage : List mapping_array_damage
  mapping_walk_error : Option String
  hint_damage : List hint_array_damage
  dirty_bits_damage : List bitset_damage
  discard_bits_damage : List bitset_damage
deriving DecidableEq

/-- persistent_data::MD_BLOCK_SIZE (block.h line 20). -/
def MD_BLOCK_SIZE : Nat := 4096

/-- Whitespace bytes the XML-prolog test skips. -/
def xml_ws (b : Nat) : Bool :=
  b == 32 || b == 9 || b == 10 || b == 13

/-- A UTF-8 byte-order mark at the head of the file, skipped by the
XML-prolog test. -/
def drop_bom : List Nat → List Nat
  | 239 :: 187 :: 191 :: rest => rest
  | bs => bs

/-- Modelled from the spec: `check_for_xml` is library code not among the
examined sources (the call site in cache_check.cc line 221 names a block
manager that is not even in scope there); per the spec it holds when the
opening bytes look like an XML prolog: "<?xml" after an optional BOM and
optional whitespace.  60,63,120,109,108 are the bytes of "<?xml". -/
def check_for_xml (bs : List Nat) : Bool :=
  ((drop_bom bs).dropWhile xml_ws).take 5 == [60, 63, 120, 109, 108]

/-- Which of the checker's effects a run performed: opening the block manager
read-only, reading the superblock's fields, opening the transaction manager,
walking the mapping array, constructing the dirty bitset, walking the hint
array, constructing the discard bitset. -/
structure effects where
  opened_bm_ro : Bool
  read_sb_fields : Bool
  opened_tm : Bool
  walked_mappings : Bool
  constructed_dirty : Bool
  walked_hints : Bool
  constructed_discard : Bool
deriving DecidableEq

/-- No effect performed yet. -/
def effects.start : effects :=
  ⟨false, false, false, false, false, false, false⟩

deriving instance DecidableEq for Except

/-- What metadata_check produces: the returned error state (or the message of
an exception that escaped), the final value of the by-reference
`needs_check_set` argument, the four reporters' final error states, the
effects performed, and the nested_output sink. -/
structure mc_result where
  res : Except String error_state
  needs_check_set : Bool
  sb_err : error_state
  mapping_err : error_state
  hint_err : error_state
  discard_err : error_state
  eff : effects
  out : nested_output
deriving DecidableEq

/-- The hint phase of metadata_check (cache_check.cc lines 265-277): when
check_hints is set, either report an absent hint array or walk it through the
hint_reporter.  Returns the hint_reporter's error state, whether the hint
array was walked, and the output sink. -/
def hint_phase (dev : device) (fs : flags) (o : nested_output) :
    error_state × Bool × nested_output :=
  if fs.check_hints then
    if dev.sb.hint_root = 0 then
      (error_state.NO_ERROR, false, o.out "no hint array present")
    else
      let q := hint_array.check
        (error_state.NO_ERROR, o.out "examining hint array") dev.hint_damage
      (q.1, true, q.2)
  else
    (error_state.NO_ERROR, false, o)

/-- The discard phase of metadata_check (cache_check.cc lines 279-291): when
check_discards is set, either report an absent discard bitset or construct the
bitset.  No check is invoked on it (the source's FIXME), so the
discard_reporter's error state is never touched; the returned error state is
the discard_reporter's, still NO_ERROR.  The Bool records whether the bitset
was constructed. -/
def discard_phase (dev : device) (fs : flags) (o : nested_output) :
    error_state × Bool × nested_output :=
  if fs.check_discards then
    if dev.sb.discard_root = 0 then
      (error_state.NO_ERROR, false, o.out "no discard bitset present")
    else
      (error_state.NO_ERROR, true, o.out "examining discard bitset")
  else
    (error_state.NO_ERROR, false, o)

/-- The tail of metadata_check after the mapping phase: hint phase, discard
phase, then the final nested combine of the four reporters' error states
(cache_check.cc lines 293-298). -/
def metadata_check_tail (dev : device) (fs : flags)
    (sb_err mapping_err : error_state) (eff : effects) (o : nested_output)
    (needs : Bool) : mc_result :=
  let h := hint_phase dev fs o
  let d := discard_phase dev fs h.2.2
  { res := Except.ok (combine_errors sb_err
      (combine_errors mapping_err (combine_errors h.1 d.1)))
    needs_check_set := needs
    sb_err := sb_err
    mapping_err := mapping_err
    hint_err := h.1
    discard_err := d.1
    eff := { eff with walked_hints := h.2.1, constructed_discard := d.2.1 }
    out := d.2.2 }

/-- The body of metadata_check after the nested_output sink has been set up
(cache_check.cc lines 220-298): length classification, superblock check with
early FATAL return, superblock read and transaction-manager open, mapping
phase (with the dirty bitset constructed but not checked when version >= 2),
then the tail. -/
def metadata_check_from (o : nested_output) (dev : device) (fs : flags)
    (needs_check_in : Bool) : mc_result :=
  if dev.file_length < MD_BLOCK_SIZE then
    if check_for_xml dev.opening_bytes then
      { res := Except.ok error_state.FATAL
        needs_check_set := needs_check_in
        sb_err := error_state.NO_ERROR
        mapping_err := error_state.NO_ERROR
        hint_err := error_state.NO_ERROR
        discard_err := error_state.NO_ERROR
        eff := effects.start
        out := o.out "This looks like XML.  cache_check only checks the binary metadata format." }
    else
      { res := Except.ok error_state.FATAL
        needs_check_set := needs_check_in
        sb_err := error_state.NO_ERROR
        mapping_err := error_state.NO_ERROR
        hint_err := error_state.NO_ERROR
        discard_err := error_state.NO_ERROR
        eff := effects.start
        out := o.out "Metadata device/file too small.  Is this binary metadata?" }
  else
    let eff1 : effects := { effects.start with opened_bm_ro := true }
    let p := check_superblock
      (error_state.NO_ERROR, o.out "examining superblock") dev.sb_damage
    if p.1 = error_state.FATAL then
      { res := Except.ok error_state.FATAL
        needs_check_set := needs_check_in
        sb_err := p.1
        mapping_err := error_state.NO_ERROR
        hint_err := error_state.NO_ERROR
        discard_err := error_state.NO_ERROR
        eff := eff1
        out := p.2 }
    else
      let eff2 : effects := { eff1 with read_sb_fields := true, opened_tm := true }
      let needs := dev.sb.flags_needs_check
      if fs.check_mappings then
        match dev.mapping_walk_error with
        | some m =>
          { res := Except.error m
            needs_check_set := needs
            sb_err := p.1
            mapping_err := error_state.NO_ERROR
            hint_err := error_state.NO_ERROR
            discard_err := error_state.NO_ERROR
            eff := { eff2 with walked_mappings := true }
            out := p.2.out "examining mapping array" }
        | none =>
          let q := check_mapping_array
            (error_state.NO_ERROR, p.2.out "examining mapping array")
            dev.mapping_damage
          metadata_check_tail dev fs p.1 q.1
            { eff2 with
              walked_mappings := true
              constructed_dirty := decide (2 ≤ dev.sb.version) }
            q.2 needs
      else
        metadata_check_tail dev fs p.1 error_state.NO_ERROR eff2 p.2 needs

/-- metadata_check (cache_check.cc lines 214-298).  `needs_check_in` is the
caller's (uninitialized) `needs_check_set` variable, returned unchanged on the
paths that never assign it. -/
def metadata_check (dev : device) (fs : flags) (needs_check_in : Bool) :
    mc_result :=
  let o : nested_output := { enabled := true, msgs := [] }
  metadata_check_from (if fs.quiet then o.disable else o) dev fs needs_check_in

/-- Modelled from the spec: the superblock checksum word covers the remainder
of block 0; here an explicit function of every non-checksum field, so that a
recomputed checksum is the only other byte of block 0 a flag change
touches. -/
def sb_checksum (sb : superblock) : Nat :=
  (sb.magic + 3 * sb.version + 5 * (if sb.flags_needs_check then 1 else 0) +
   7 * sb.other_flags + 11 * sb.mapping_root + 13 * sb.hint_root +
   17 * sb.discard_root + 19 * sb.dirty_root + 23 * sb.cache_blocks +
   29 * sb.discard_nr_blocks + 31 * sb.policy_hint_size) % 2 ^ 32

/-- clear_needs_check (cache_check.cc lines 206-212): re-open the block
manager read-write, read the superblock, clear only the NEEDS_CHECK flag,
write the superblock back.  The read/write protocol (read_superblock,
superblock_flags::clear_flag, write_superblock with its checksum and
superblock-last commit) is library code not among the examined sources and is
modelled from the spec: only the NEEDS_CHECK bit changes, plus the recomputed
checksum. -/
def clear_needs_check (sb : superblock) : superblock :=
  let sb1 := { sb with flags_needs_check := false }
  { sb1 with csum := sb_checksum sb1 }

/-- The success test of check (cache_check.cc lines 315-318): under
ignore_non_fatal_errors, success is `err != FATAL`; otherwise success is
`err == NO_ERROR`. -/
def run_success (fs : flags) (err : error_state) : Bool :=
  if fs.ignore_non_fatal_errors then
    if err = error_state.FATAL then false else true
  else
    if err = error_state.NO_ERROR then true else false

/-- What check produces: its return value or the message of the exception it
threw, whether clear_needs_check ran, the superblock stored in block 0
afterwards, and the messages written to stderr so far. -/
structure check_result where
  res : Except String Nat
  cleared : Bool
  sb_after : superblock
  stderr : List String
deriving DecidableEq

/-- check (cache_check.cc lines 300-324): stat the path (guarded_stat throws
on failure), reject a path that is neither a regular file nor a block device,
run metadata_check, compute success under the policy, run clear_needs_check
when success, clear_needs_check_on_success and needs_check_set all hold, and
return 0 exactly when the error state is NO_ERROR. -/
def check (dev : device) (fs : flags) (needs_check_in : Bool) : check_result :=
  match dev.stat_error with
  | some m =>
      { res := Except.error m
        cleared := false
        sb_after := dev.sb
        stderr := [] }
  | none =>
      if !dev.is_reg && !dev.is_blk then
        { res := Except.error (dev.path ++ ": " ++ "Not a block device or regular file")
          cleared := false
          sb_after := dev.sb
          stderr := [] }
      else
        let mc := metadata_check dev fs needs_check_in
        match mc.res with
        | Except.error m =>
            { res := Except.error m
              cleared := false
              sb_after := dev.sb
              stderr := mc.out.msgs }
        | Except.ok err =>
            let success := run_success fs err
            let doClear :=
              success && fs.clear_needs_check_on_success && mc.needs_check_set
            { res := Except.ok (if err = error_state.NO_ERROR then 0 else 1)
              cleared := doClear
              sb_after := if doClear then clear_needs_check dev.sb else dev.sb
              stderr := mc.out.msgs }

/-- What check_with_exception_handling produces: the process exit code, the
full stderr contents, and the final state of the superblock. -/
structure cwe_result where
  exit : Nat
  stderr : List String
  cleared : Bool
  sb_after : superblock
deriving DecidableEq

/-- check_with_exception_handling (cache_check.cc lines 326-339): run check;
an exception is caught, its message printed to stderr unless quiet, and the
return value becomes 1. -/
def check_with_exception_handling (dev : device) (fs : flags)
    (needs_check_in : Bool) : cwe_result :=
  match (check dev fs needs_check_in).res with
  | Except.ok r =>
      { exit := r
        stderr := (check dev fs needs_check_in).stderr
        cleared := (check dev fs needs_check_in).cleared
        sb_after := (check dev fs needs_check_in).sb_after }
  | Except.error m =>
      { exit := 1
        stderr := (check dev fs needs_check_in).stderr ++
          (if fs.quiet then [] else [m])
        cleared := (check dev fs needs_check_in).cleared
        sb_after := (check dev fs needs_check_in).sb_after }

/-! ## Helper lemmas -/

/-- Every error state combined with FATAL gives FATAL: FATAL is the top of the
order. -/
theorem combine_fatal_right (st : error_state) :
    combine_errors st error_state.FATAL = error_state.FATAL := by
  cases st <;> rfl

/-- `combine_errors` always returns one of its arguments. -/
theorem combine_errors_cases (a b : error_state) :
    combine_errors a b = a ∨ combine_errors a b = b := by
  cases a <;> cases b <;> simp [combine_errors, error_rank]

/-- A combine of two states distinct from NON_FATAL is distinct from
NON_FATAL. -/
theorem combine_errors_ne_nf (a b : error_state)
    (ha : a ≠ error_state.NON_FATAL) (hb : b ≠ error_state.NON_FATAL) :
    combine_errors a b ≠ error_state.NON_FATAL := by
  rcases combine_errors_cases a b with h | h <;> rw [h] <;> assumption

/-- The error state accumulated by the superblock reporter over a walk: the
initial state when no damage is reported, FATAL otherwise. -/
theorem check_superblock_fst (st : error_state) (o : nested_output)
    (ds : List superblock_damage) :
    (check_superblock (st, o) ds).1 =
      if ds = [] then st else error_state.FATAL := by
  induction ds generalizing st o with
  | nil => rfl
  | cons d ds ih =>
      have hv : superblock_reporter.visit_err st d = error_state.FATAL := by
        cases st <;> rfl
      show (check_superblock (superblock_reporter.visit_err st d,
        superblock_reporter.visit_out o d) ds).1 = _
      rw [hv, ih]
      simp

/-- The error state accumulated by the mapping reporter over a walk. -/
theorem check_mapping_array_fst (st : error_state) (o : nested_output)
    (ds : List mapping_array_damage) :
    (check_mapping_array (st, o) ds).1 =
      if ds = [] then st else error_state.FATAL := by
  induction ds generalizing st o with
  | nil => rfl
  | cons d ds ih =>
      have hv : mapping_reporter.visit_err st d = error_state.FATAL := by
        cases st <;> rfl
      show (check_mapping_array (mapping_reporter.visit_err st d,
        mapping_reporter.visit_out o d) ds).1 = _
      rw [hv, ih]
      simp

/-- The error state accumulated by the hint reporter over a walk. -/
theorem hint_array_check_fst (st : error_state) (o : nested_output)
    (ds : List hint_array_damage) :
    (hint_array.check (st, o) ds).1 =
      if ds = [] then st else error_state.FATAL := by
  induction ds generalizing st o with
  | nil => rfl
  | cons d ds ih =>
      have hv : hint_reporter.visit_err st d = error_state.FATAL := by
        cases st <;> rfl
      show (hint_array.check (hint_reporter.visit_err st d,
        hint_reporter.visit_out o d) ds).1 = _
      rw [hv, ih]
      simp

/-- The hint phase's error state, independent of the output sink. -/
theorem hint_phase_fst (dev : device) (fs : flags) (o : nested_output) :
    (hint_phase dev fs o).1 =
      if fs.check_hints then
        if dev.sb.hint_root = 0 then error_state.NO_ERROR
        else if dev.hint_damage = [] then error_state.NO_ERROR
        else error_state.FATAL
      else error_state.NO_ERROR := by
  unfold hint_phase
  split
  · split
    · rfl
    · simp [hint_array_check_fst]
  · rfl

/-- Whether the hint phase walks the hint array, independent of the output
sink. -/
theorem hint_phase_walked (dev : device) (fs : flags) (o : nested_output) :
    (hint_phase dev fs o).2.1 =
      if fs.check_hints then
        if dev.sb.hint_root = 0 then false else true
      else false := by
  unfold hint_phase
  split
  · split
    · rfl
    · simp
  · rfl

/-- The discard phase never touches the discard reporter, so its error state
is NO_ERROR. -/
theorem discard_phase_fst (dev : device) (fs : flags) (o : nested_output) :
    (discard_phase dev fs o).1 = error_state.NO_ERROR := by
  unfold discard_phase
  split
  · split <;> rfl
  · rfl

/-- Whether the discard phase constructs the discard bitset, independent of
the output sink. -/
theorem discard_phase_constructed (dev : device) (fs : flags)
    (o : nested_output) :
    (discard_phase dev fs o).2.1 =
      if fs.check_discards then
        if dev.sb.discard_root = 0 then false else true
      else false := by
  unfold discard_phase
  split
  · split <;> rfl
  · rfl

/-- Everything metadata_check computes apart from its output sink. -/
def mc_strip (r : mc_result) :
    Except String error_state × Bool × error_state × error_state ×
      error_state × error_state × effects :=
  (r.res, r.needs_check_set, r.sb_err, r.mapping_err, r.hint_err,
   r.discard_err, r.eff)

/-- The output sink passed into the checker's body influences only the output,
and the quiet flag influences nothing in the body: every other component of
the result coincides for any two sinks and any two flag sets that agree on
check_mappings, check_hints, check_discards and ignore_non_fatal_errors. -/
theorem metadata_check_from_strip (o o' : nested_output) (dev : device)
    (fs fs' : flags) (n : Bool)
    (h1 : fs.check_mappings = fs'.check_mappings)
    (h2 : fs.check_hints = fs'.check_hints)
    (h3 : fs.check_discards = fs'.check_discards) :
    mc_strip (metadata_check_from o dev fs n) =
      mc_strip (metadata_check_from o' dev fs' n) := by
  unfold metadata_check_from
  by_cases hlen : dev.file_length < MD_BLOCK_SIZE
  · by_cases hxml : check_for_xml dev.opening_bytes <;>
      simp [hlen, hxml, mc_strip]
  · by_cases hds : dev.sb_damage = []
    · simp only [hlen, if_false, check_superblock_fst, hds, if_true,
        mc_strip]
      by_cases hm : fs.check_mappings
      · cases hmw : dev.mapping_walk_error with
        | some m => simp [hm, ← h1, hmw]
        | none =>
            simp [hm, ← h1, hmw, metadata_check_tail,
              check_mapping_array_fst, hint_phase_fst, hint_phase_walked,
              discard_phase_fst, discard_phase_constructed, h2, h3]
      · simp [hm, ← h1, metadata_check_tail, hint_phase_fst,
          hint_phase_walked, discard_phase_fst, discard_phase_constructed,
          h2, h3]
    · simp [hlen, check_superblock_fst, hds, mc_strip]

/-- The error state (or escaping exception) metadata_check returns, as an
explicit function of the input: FATAL for a short file, FATAL when the
superblock check reports damage, the mapping walk's I/O error when one is
thrown, and otherwise the join of the phases (the superblock phase
contributing NO_ERROR, the mapping and hint phases FATAL exactly when their
walks delivered damage, the discard phase always NO_ERROR). -/
theorem metadata_check_res_spec (dev : device) (fs : flags) (n : Bool) :
    (metadata_check dev fs n).res =
      (if dev.file_length < MD_BLOCK_SIZE then Except.ok error_state.FATAL
       else if dev.sb_damage = [] then
         (match (if fs.check_mappings then dev.mapping_walk_error else none) with
          | some m => Except.error m
          | none =>
              Except.ok (combine_errors error_state.NO_ERROR
                (combine_errors
                  (if fs.check_mappings then
                     (if dev.mapping_damage = [] then error_state.NO_ERROR
                      else error_state.FATAL)
                   else error_state.NO_ERROR)
                  (combine_errors
                    (if fs.check_hints then
                       (if dev.sb.hint_root = 0 then error_state.NO_ERROR
                        else if dev.hint_damage = [] then error_state.NO_ERROR
                        else error_state.FATAL)
                     else error_state.NO_ERROR)
                    error_state.NO_ERROR))))
       else Except.ok error_state.FATAL) := by
  unfold metadata_check metadata_check_from
  by_cases hlen : dev.file_length < MD_BLOCK_SIZE
  · by_cases hxml : check_for_xml dev.opening_bytes <;> simp [hlen, hxml]
  · by_cases hds : dev.sb_damage = []
    · simp only [hlen, if_false, check_superblock_fst, hds, if_true]
      by_cases hm : fs.check_mappings
      · cases hmw : dev.mapping_walk_error with
        | some m => simp [hm, hmw]
        | none =>
            simp [hm, hmw, metadata_check_tail, check_mapping_array_fst,
              hint_phase_fst, discard_phase_fst]
      · simp [hm, metadata_check_tail, hint_phase_fst, discard_phase_fst]
    · simp [hlen, check_superblock_fst, hds]

/-- The final value of the needs_check_set out-parameter: the superblock's
NEEDS_CHECK flag once the superblock has been read, the caller's
(uninitialized) value on the two early-return paths that never assign it. -/
theorem metadata_check_needs_spec (dev : device) (fs : flags) (n : Bool) :
    (metadata_check dev fs n).needs_check_set =
      (if dev.file_length < MD_BLOCK_SIZE then n
       else if dev.sb_damage = [] then dev.sb.flags_needs_check
       else n) := by
  unfold metadata_check metadata_check_from
  by_cases hlen : dev.file_length < MD_BLOCK_SIZE
  · by_cases hxml : check_for_xml dev.opening_bytes <;> simp [hlen, hxml]
  · by_cases hds : dev.sb_damage = []
    · simp only [hlen, if_false, check_superblock_fst, hds, if_true]
      by_cases hm : fs.check_mappings
      · cases hmw : dev.mapping_walk_error with
        | some m => simp [hm, hmw]
        | none => simp [hm, hmw, metadata_check_tail]
      · simp [hm, metadata_check_tail]
    · simp [hlen, check_superblock_fst, hds]

/-- metadata_check never returns NON_FATAL: every damage visit escalates to
FATAL, so each phase's state is NO_ERROR or FATAL, and so is their join. -/
theorem metadata_check_res_ne_nf (dev : device) (fs : flags) (n : Bool) :
    (metadata_check dev fs n).res ≠ Except.ok error_state.NON_FATAL := by
  rw [metadata_check_res_spec]
  split
  · simp
  · split
    · split
      · simp
      · have h : ∀ a b : error_state, a ≠ error_state.NON_FATAL →
            b ≠ error_state.NON_FATAL →
            (Except.ok (combine_errors a b) : Except String error_state) ≠
              Except.ok error_state.NON_FATAL := by
          intro a b ha hb hc
          exact combine_errors_ne_nf a b ha hb (Except.ok.inj hc)
        apply h
        · simp
        · apply combine_errors_ne_nf
          · split
            · split <;> simp
            · simp
          · apply combine_errors_ne_nf
            · split
              · split
                · simp
                · split <;> simp
              · simp
            · simp
    · simp

/-- metadata_check never reads the contents of the dirty or discard bitsets:
its whole result — error state, needs_check flag, phase states, effects and
output — is unchanged by any damage present in them. -/
theorem metadata_check_bits_irrel (dev : device) (fs : flags) (n : Bool)
    (dd de : List bitset_damage) :
    metadata_check
        { dev with dirty_bits_damage := dd, discard_bits_damage := de } fs n =
      metadata_check dev fs n := by
  cases dev
  rfl

/-- run_success holds at NO_ERROR under either policy. -/
theorem run_success_no_error (fs : flags) :
    run_success fs error_state.NO_ERROR = true := by
  unfold run_success
  cases h : fs.ignore_non_fatal_errors <;> simp [h]

/-- run_success fails at FATAL under either policy. -/
theorem run_success_fatal (fs : flags) :
    run_success fs error_state.FATAL = false := by
  unfold run_success
  cases h : fs.ignore_non_fatal_errors <;> simp [h]

/-- A successful run's error state is NO_ERROR: NON_FATAL never arises (every
visit escalates to FATAL) and FATAL fails under both policies, so the
skip-nonfatal policy's success coincides with err = NO_ERROR on every run this
checker can produce. -/
theorem success_imp_no_error (dev : device) (fs : flags) (n : Bool)
    (err : error_state)
    (h : (metadata_check dev fs n).res = Except.ok err)
    (hs : run_success fs err = true) : err = error_state.NO_ERROR := by
  cases err with
  | NO_ERROR => rfl
  | NON_FATAL => exact absurd h (metadata_check_res_ne_nf dev fs n)
  | FATAL => rw [run_success_fatal] at hs; exact absurd hs (by simp)

/-- A run that returned NO_ERROR got past both early returns: the file was at
least one block long and the superblock check reported no damage. -/
theorem ok_no_error_shape (dev : device) (fs : flags) (n : Bool)
    (h : (metadata_check dev fs n).res = Except.ok error_state.NO_ERROR) :
    ¬ dev.file_length < MD_BLOCK_SIZE ∧ dev.sb_damage = [] := by
  rw [metadata_check_res_spec] at h
  by_cases hlen : dev.file_length < MD_BLOCK_SIZE
  · simp [hlen] at h
  · by_cases hds : dev.sb_damage = []
    · exact ⟨hlen, hds⟩
    · simp [hlen, hds] at h

/-! ## Concrete scenario inputs -/

/-- The flag constructor's defaults (cache_check.cc lines 176-183): check
everything, treat any error as failure, verbose, no clearing. -/
def default_flags : flags := {}

/-- The default flags with clear_needs_check_on_success set, as
--clear-needs-check-flag produces. -/
def fs_clear : flags := { clear_needs_check_on_success := true }

/-- A well-formed superblock for the concrete scenarios: version 2, an empty
cache, no hint array, no discard bitset, NEEDS_CHECK set. -/
def sb_demo : superblock :=
  { csum := 0
    magic := 1623043
    version := 2
    flags_needs_check := true
    other_flags := 0
    mapping_root := 8
    hint_root := 0
    discard_root := 0
    dirty_root := 9
    cache_blocks := 0
    discard_nr_blocks := 0
    policy_hint_size := 4 }

/-- A clean regular-file input: four blocks long, valid superblock, no damage
anywhere. -/
def dev_clean : device :=
  { path := "meta.bin"
    stat_error := none
    is_reg := true
    is_blk := false
    file_length := 16384
    opening_bytes := [0, 0, 0, 0]
    sb_damage := []
    sb := sb_demo
    mapping_damage := []
    mapping_walk_error := none
    hint_damage := []
    dirty_bits_damage := []
    discard_bits_damage := [] }

/-- Scenario S1: an empty regular file. -/
def dev_empty : device :=
  { dev_clean with file_length := 0, opening_bytes := [] }

/-- Scenario S4: the superblock check reports corruption. -/
def dev_bad_sb : device :=
  { dev_clean with
    sb_damage := [superblock_damage.superblock_corrupt "bad checksum"] }

/-- A clean input except that the dirty bitset has missing bits. -/
def dev_dirty : device :=
  { dev_clean with dirty_bits_damage := [bitset_damage.missing_bits [3]] }

/-- An input whose stat fails. -/
def dev_stat_fail : device :=
  { dev_clean with stat_error := some "meta.bin: No such file or directory" }

/-! ## Claims -/

/-- C2: the error-state combination operator is the max (join) over the total
order NO_ERROR < NON_FATAL < FATAL: associative, commutative and idempotent,
with NO_ERROR as identity; mplus_error applies exactly this combine; and on a
run that reaches the final nested combine (the file is at least one block, the
superblock check reported no damage, and no I/O error escaped the mapping
walk), metadata_check's overall result is the join of the four per-phase error
states — by associativity and commutativity, independent of grouping. -/
theorem combine_errors_join_monoid (dev : device) (fs : flags) (n : Bool) :
    (∀ a b c : error_state,
      combine_errors (combine_errors a b) c =
        combine_errors a (combine_errors b c)) ∧
    (∀ a b : error_state, combine_errors a b = combine_errors b a) ∧
    (∀ a : error_state, combine_errors a a = a) ∧
    (∀ a : error_state,
      combine_errors error_state.NO_ERROR a = a ∧
      combine_errors a error_state.NO_ERROR = a) ∧
    (∀ a b : error_state,
      error_rank (combine_errors a b) = max (error_rank a) (error_rank b)) ∧
    (∀ a b : error_state, mplus_error a b = combine_errors a b) ∧
    (¬ dev.file_length < MD_BLOCK_SIZE → dev.sb_damage = [] →
      (fs.check_mappings = true → dev.mapping_walk_error = none) →
      (metadata_check dev fs n).res =
        Except.ok (combine_errors (metadata_check dev fs n).sb_err
          (combine_errors (metadata_check dev fs n).mapping_err
            (combine_errors (metadata_check dev fs n).hint_err
              (metadata_check dev fs n).discard_err)))) := by
  refine ⟨?_, ?_, ?_, ?_, ?_, ?_, ?_⟩
  · intro a b c; cases a <;> cases b <;> cases c <;> rfl
  · intro a b; cases a <;> cases b <;> rfl
  · intro a; cases a <;> rfl
  · intro a; exact ⟨by cases a <;> rfl, by cases a <;> rfl⟩
  · intro a b; cases a <;> cases b <;> rfl
  · intro a b; rfl
  · intro hlen hds hio
    unfold metadata_check metadata_check_from
    simp only [hlen, if_false, check_superblock_fst, hds, if_true]
    by_cases hm : fs.check_mappings
    · simp [hm, hio hm, metadata_check_tail]
    · simp [hm, metadata_check_tail]

/-- C2 witness: the join law of the final combine, instantiated on the clean
input with the default flags. -/
theorem combine_errors_join_monoid_witness :
    (metadata_check dev_clean default_flags false).res =
      Except.ok (combine_errors (metadata_check dev_clean default_flags false).sb_err
        (combine_errors (metadata_check dev_clean default_flags false).mapping_err
          (combine_errors (metadata_check dev_clean default_flags false).hint_err
            (metadata_check dev_clean default_flags false).discard_err))) := by
  exact (combine_errors_join_monoid dev_clean default_flags false).2.2.2.2.2.2
    (by decide) rfl (fun _ => rfl)

/-- C5: every damage report delivered to one of the checker's default
reporters — missing mappings or an invalid mapping (the mapping reporter),
missing hints (the hint reporter), missing discard bits (the discard reporter)
— sets that reporter's accumulated error state to the join of its previous
state with FATAL, which is FATAL; so a walk that delivers at least one damage
report leaves the reporter FATAL, and a FATAL state in any content slot of the
final nested combine makes the overall result FATAL. -/
theorem default_reporter_damage_fatal (prev : error_state) (o : nested_output)
    (md : mapping_array_damage) (hd : hint_array_damage) (bd : bitset_damage)
    (mds : List mapping_array_damage) (hds : List hint_array_damage) :
    (mapping_reporter.visit_err prev md = combine_errors prev error_state.FATAL ∧
     hint_reporter.visit_err prev hd = combine_errors prev error_state.FATAL ∧
     discard_reporter.visit_err prev bd = combine_errors prev error_state.FATAL) ∧
    combine_errors prev error_state.FATAL = error_state.FATAL ∧
    (check_mapping_array (prev, o) (md :: mds)).1 = error_state.FATAL ∧
    (hint_array.check (prev, o) (hd :: hds)).1 = error_state.FATAL ∧
    (∀ a b c : error_state,
      combine_errors a (combine_errors error_state.FATAL (combine_errors b c)) =
        error_state.FATAL ∧
      combine_errors a (combine_errors b (combine_errors error_state.FATAL c)) =
        error_state.FATAL ∧
      combine_errors a (combine_errors b (combine_errors c error_state.FATAL)) =
        error_state.FATAL) := by
  refine ⟨⟨rfl, rfl, rfl⟩, combine_fatal_right prev, ?_, ?_, ?_⟩
  · show (check_mapping_array (mapping_reporter.visit_err prev md,
      mapping_reporter.visit_out o md) mds).1 = _
    have hv : mapping_reporter.visit_err prev md = error_state.FATAL := by
      cases prev <;> rfl
    rw [check_mapping_array_fst, hv]
    simp
  · show (hint_array.check (hint_reporter.visit_err prev hd,
      hint_reporter.visit_out o hd) hds).1 = _
    have hv : hint_reporter.visit_err prev hd = error_state.FATAL := by
      cases prev <;> rfl
    rw [hint_array_check_fst, hv]
    simp
  · intro a b c
    refine ⟨?_, ?_, ?_⟩ <;> cases a <;> cases b <;> cases c <;> rfl

/-- C3: an input shorter than one 4096-byte block makes metadata_check return
FATAL with no effect performed — in particular no block manager is opened for
traversal; the message classifies the input as XML-looking (wrong tool) when
the opening bytes look like an XML prolog and as too-small binary metadata
otherwise; and the process exit code is 1. -/
theorem short_file_fatal (dev : device) (fs : flags) (n : Bool)
    (hlen : dev.file_length < MD_BLOCK_SIZE) :
    (metadata_check dev fs n).res = Except.ok error_state.FATAL ∧
    (metadata_check dev fs n).eff = effects.start ∧
    (check_for_xml dev.opening_bytes = true → fs.quiet = false →
      (metadata_check dev fs n).out.msgs =
        ["This looks like XML.  cache_check only checks the binary metadata format."]) ∧
    (check_for_xml dev.opening_bytes = false → fs.quiet = false →
      (metadata_check dev fs n).out.msgs =
        ["Metadata device/file too small.  Is this binary metadata?"]) ∧
    (dev.stat_error = none → (dev.is_reg = true ∨ dev.is_blk = true) →
      (check_with_exception_handling dev fs n).exit = 1) := by
  have hres : (metadata_check dev fs n).res = Except.ok error_state.FATAL := by
    rw [metadata_check_res_spec]; simp [hlen]
  refine ⟨hres, ?_, ?_, ?_, ?_⟩
  · unfold metadata_check metadata_check_from
    by_cases hxml : check_for_xml dev.opening_bytes <;> simp [hlen, hxml]
  · intro hxml hq
    unfold metadata_check metadata_check_from
    simp [hlen, hxml, hq, nested_output.out]
  · intro hxml hq
    unfold metadata_check metadata_check_from
    simp [hlen, hxml, hq, nested_output.out]
  · intro hst hty
    have hc : (check dev fs n).res = Except.ok 1 := by
      unfold check
      rcases hty with h | h <;> simp [hst, h, hres]
    unfold check_with_exception_handling
    simp [hc]

/-- C3 witness: scenario S1, the empty regular file: FATAL, no block manager
opened, the too-small message, exit 1. -/
theorem short_file_fatal_witness :
    dev_empty.file_length < MD_BLOCK_SIZE ∧
    (metadata_check dev_empty default_flags false).res =
      Except.ok error_state.FATAL ∧
    (metadata_check dev_empty default_flags false).eff = effects.start ∧
    (metadata_check dev_empty default_flags false).out.msgs =
      ["Metadata device/file too small.  Is this binary metadata?"] ∧
    (check_with_exception_handling dev_empty default_flags false).exit = 1 := by
  have h := short_file_fatal dev_empty default_flags false (by decide)
  exact ⟨by decide, h.1, h.2.1, h.2.2.2.1 (by decide) rfl,
    h.2.2.2.2 rfl (Or.inl rfl)⟩

/-- C4: when the superblock check reports damage (so the superblock reporter's
accumulated state is FATAL — with any report it is FATAL, since every visit
escalates there), metadata_check returns FATAL at once: the superblock's
fields are not read, no transaction manager is opened, and none of the
mapping, hint, dirty or discard structures is walked or constructed. -/
theorem superblock_fatal_early_return (dev : device) (fs : flags) (n : Bool)
    (hlen : ¬ dev.file_length < MD_BLOCK_SIZE)
    (hds : dev.sb_damage ≠ []) :
    (metadata_check dev fs n).sb_err = error_state.FATAL ∧
    (metadata_check dev fs n).res = Except.ok error_state.FATAL ∧
    (metadata_check dev fs n).eff =
      { effects.start with opened_bm_ro := true } ∧
    (metadata_check dev fs n).eff.read_sb_fields = false ∧
    (metadata_check dev fs n).eff.opened_tm = false ∧
    (metadata_check dev fs n).eff.walked_mappings = false ∧
    (metadata_check dev fs n).eff.constructed_dirty = false ∧
    (metadata_check dev fs n).eff.walked_hints = false ∧
    (metadata_check dev fs n).eff.constructed_discard = false := by
  unfold metadata_check metadata_check_from
  simp [hlen, check_superblock_fst, hds, effects.start]

/-- C4 witness: scenario S4, a superblock reported corrupt: FATAL with nothing
read, opened or walked past the superblock check. -/
theorem superblock_fatal_early_return_witness :
    (metadata_check dev_bad_sb default_flags false).sb_err =
      error_state.FATAL ∧
    (metadata_check dev_bad_sb default_flags false).res =
      Except.ok error_state.FATAL ∧
    (metadata_check dev_bad_sb default_flags false).eff =
      { effects.start with opened_bm_ro := true } := by
  have h := superblock_fatal_early_return dev_bad_sb default_flags false
    (by decide) (by decide)
  exact ⟨h.1, h.2.1, h.2.2.1⟩

/-- C10: metadata_check never invokes the discard reporter's missing_bits
visitor and never runs any check over the dirty or discard bitsets after
constructing them: the discard reporter's error state is still NO_ERROR when
the phase results are combined, and the whole result of metadata_check is
unchanged by any damage in those bitsets. -/
theorem discard_reporter_never_visited (dev : device) (fs : flags) (n : Bool)
    (dd de : List bitset_damage) :
    (metadata_check dev fs n).discard_err = error_state.NO_ERROR ∧
    metadata_check
        { dev with dirty_bits_damage := dd, discard_bits_damage := de } fs n =
      metadata_check dev fs n := by
  refine ⟨?_, metadata_check_bits_irrel dev fs n dd de⟩
  unfold metadata_check metadata_check_from
  by_cases hlen : dev.file_length < MD_BLOCK_SIZE
  · by_cases hxml : check_for_xml dev.opening_bytes <;> simp [hlen, hxml]
  · by_cases hds : dev.sb_damage = []
    · simp only [hlen, if_false, check_superblock_fst, hds, if_true]
      by_cases hm : fs.check_mappings
      · cases hmw : dev.mapping_walk_error with
        | some m => simp [hm, hmw]
        | none => simp [hm, hmw, metadata_check_tail, discard_phase_fst]
      · simp [hm, metadata_check_tail, discard_phase_fst]
    · simp [hlen, check_superblock_fst, hds]

/-- C6 counterexample: a version-2 input whose dirty bitset has missing bits,
checked with the default flags (check_mappings set): metadata_check returns
NO_ERROR, and its whole result is identical to that on the same input with an
undamaged dirty bitset — so, contrary to the claim, the dirty bitset is not
walked and its damage is not observable in the returned error state. -/
theorem dirty_bitset_damage_unobservable :
    2 ≤ dev_dirty.sb.version ∧
    dev_dirty.dirty_bits_damage ≠ [] ∧
    default_flags.check_mappings = true ∧
    (metadata_check dev_dirty default_flags false).res =
      Except.ok error_state.NO_ERROR ∧
    metadata_check dev_dirty default_flags false =
      metadata_check dev_clean default_flags false := by
  exact ⟨by decide, by decide, rfl, rfl, rfl⟩

/-- C6 (amended): when check_mappings is set and the run reaches the walks
(the file is at least one block, the superblock check reported no damage, and
no I/O error escaped the mapping walk), metadata_check walks the mapping
array through the mapping reporter — whose state ends FATAL exactly when the
walk delivered damage — and when the superblock version is at least 2 it
constructs the dirty bitset; but no check runs over the dirty bitset, so
damage in it is not observable in the result. -/
theorem mapping_walk_and_dirty_bitset (dev : device) (fs : flags) (n : Bool)
    (hm : fs.check_mappings = true)
    (hlen : ¬ dev.file_length < MD_BLOCK_SIZE)
    (hds : dev.sb_damage = [])
    (hio : dev.mapping_walk_error = none) :
    (metadata_check dev fs n).eff.walked_mappings = true ∧
    (metadata_check dev fs n).mapping_err =
      (if dev.mapping_damage = [] then error_state.NO_ERROR
       else error_state.FATAL) ∧
    (metadata_check dev fs n).eff.constructed_dirty =
      decide (2 ≤ dev.sb.version) ∧
    (∀ dd : List bitset_damage,
      metadata_check { dev with dirty_bits_damage := dd } fs n =
        metadata_check dev fs n) := by
  refine ⟨?_, ?_, ?_, ?_⟩
  · unfold metadata_check metadata_check_from
    simp [hlen, check_superblock_fst, hds, hm, hio, metadata_check_tail]
  · unfold metadata_check metadata_check_from
    simp [hlen, check_superblock_fst, hds, hm, hio, metadata_check_tail,
      check_mapping_array_fst]
  · unfold metadata_check metadata_check_from
    simp [hlen, check_superblock_fst, hds, hm, hio, metadata_check_tail]
  · intro dd
    exact metadata_check_bits_irrel dev fs n dd dev.discard_bits_damage

/-- C6 witness (for the amended claim): the clean version-2 input with the
default flags: the mapping array is walked, its reporter ends NO_ERROR, and
the dirty bitset is constructed. -/
theorem mapping_walk_and_dirty_bitset_witness :
    (metadata_check dev_clean default_flags false).eff.walked_mappings = true ∧
    (metadata_check dev_clean default_flags false).mapping_err =
      (if dev_clean.mapping_damage = [] then error_state.NO_ERROR
       else error_state.FATAL) ∧
    (metadata_check dev_clean default_flags false).eff.constructed_dirty =
      decide (2 ≤ dev_clean.sb.version) := by
  have h := mapping_walk_and_dirty_bitset dev_clean default_flags false rfl
    (by decide) rfl rfl
  exact ⟨h.1, h.2.1, h.2.2.1⟩

/-- C9: two runs on the same input and flags that differ only in quiet compute
the same result: metadata_check's returned error state (and needs_check flag)
and check_with_exception_handling's exit code are identical; quiet influences
only what is written to stderr. -/
theorem quiet_flag_result_independent (dev : device) (fs : flags)
    (n q1 q2 : Bool) :
    (metadata_check dev { fs with quiet := q1 } n).res =
      (metadata_check dev { fs with quiet := q2 } n).res ∧
    (metadata_check dev { fs with quiet := q1 } n).needs_check_set =
      (metadata_check dev { fs with quiet := q2 } n).needs_check_set ∧
    (check_with_exception_handling dev { fs with quiet := q1 } n).exit =
      (check_with_exception_handling dev { fs with quiet := q2 } n).exit := by
  have hs : mc_strip (metadata_check dev { fs with quiet := q1 } n) =
      mc_strip (metadata_check dev { fs with quiet := q2 } n) := by
    unfold metadata_check
    exact metadata_check_from_strip _ _ dev _ _ n rfl rfl rfl
  have hres : (metadata_check dev { fs with quiet := q1 } n).res =
      (metadata_check dev { fs with quiet := q2 } n).res :=
    congrArg (fun p => p.1) hs
  have hneeds : (metadata_check dev { fs with quiet := q1 } n).needs_check_set =
      (metadata_check dev { fs with quiet := q2 } n).needs_check_set :=
    congrArg (fun p => p.2.1) hs
  refine ⟨hres, hneeds, ?_⟩
  have hcres : (check dev { fs with quiet := q1 } n).res =
      (check dev { fs with quiet := q2 } n).res := by
    unfold check
    cases hst : dev.stat_error with
    | some m => rfl
    | none =>
        by_cases hcond : (!dev.is_reg && !dev.is_blk) = true
        · simp [hcond]
        · simp only [hcond, Bool.false_eq_true, if_false, if_neg,
            Bool.not_eq_true]
          cases hr1 : (metadata_check dev { fs with quiet := q1 } n).res with
          | error m => rw [hres] at hr1; simp [hr1]
          | ok err => rw [hres] at hr1; simp [hr1]
  unfold check_with_exception_handling
  cases hc1 : (check dev { fs with quiet := q1 } n).res with
  | error m => rw [hcres] at hc1; simp [hc1]
  | ok r => rw [hcres] at hc1; simp [hc1]

/-- Whether check runs clear_needs_check, as an explicit function of the
input: never on an exception path, otherwise the conjunction the source tests
at line 320 — success under the policy, the clear flag, and the
needs_check_set out-parameter. -/
theorem check_cleared_spec (dev : device) (fs : flags) (n : Bool) :
    (check dev fs n).cleared =
      (match dev.stat_error with
       | some _ => false
       | none =>
           if !dev.is_reg && !dev.is_blk then false
           else
             match (metadata_check dev fs n).res with
             | Except.error _ => false
             | Except.ok err =>
                 run_success fs err && fs.clear_needs_check_on_success &&
                   (metadata_check dev fs n).needs_check_set) := by
  unfold check
  cases hst : dev.stat_error with
  | some m => rfl
  | none =>
      by_cases hcond : (!dev.is_reg && !dev.is_blk) = true
      · simp [hcond]
      · simp only [hcond, Bool.false_eq_true, if_false, if_neg,
          Bool.not_eq_true]
        cases hres : (metadata_check dev fs n).res with
        | error m => simp [hres]
        | ok err => simp [hres]

/-- The superblock stored in block 0 after check: rewritten by
clear_needs_check exactly when check ran it, untouched otherwise. -/
theorem check_sb_after_spec (dev : device) (fs : flags) (n : Bool) :
    (check dev fs n).sb_after =
      (if (check dev fs n).cleared = true then clear_needs_check dev.sb
       else dev.sb) := by
  unfold check
  cases hst : dev.stat_error with
  | some m => rfl
  | none =>
      by_cases hcond : (!dev.is_reg && !dev.is_blk) = true
      · simp [hcond]
      · simp only [hcond, Bool.false_eq_true, if_false, if_neg,
          Bool.not_eq_true]
        cases hres : (metadata_check dev fs n).res with
        | error m => simp [hres]
        | ok err => simp [hres]

/-- C1: the exit code is 0 or 1; it is 0 exactly when the run is successful —
the path stats as a regular file or block device, no exception escapes, and
the error state passes the skip-nonfatal success policy.  (Because every
reporter visit escalates to FATAL, NON_FATAL is unreachable and the policy
coincides with err = NO_ERROR on every run, matching the source's
`err == NO_ERROR ? 0 : 1`.) -/
theorem exit_code_matches_success_policy (dev : device) (fs : flags)
    (n : Bool) :
    ((check_with_exception_handling dev fs n).exit = 0 ∨
      (check_with_exception_handling dev fs n).exit = 1) ∧
    ((check_with_exception_handling dev fs n).exit = 0 ↔
      (dev.stat_error = none ∧ (dev.is_reg = true ∨ dev.is_blk = true) ∧
       ∃ err, (metadata_check dev fs n).res = Except.ok err ∧
         run_success fs err = true)) := by
  cases hst : dev.stat_error with
  | some m =>
      have hc : (check dev fs n).res = Except.error m := by
        unfold check; simp [hst]
      have he : (check_with_exception_handling dev fs n).exit = 1 := by
        unfold check_with_exception_handling; simp [hc]
      rw [he]
      exact ⟨Or.inr rfl, by simp [hst]⟩
  | none =>
      by_cases hty : dev.is_reg = true ∨ dev.is_blk = true
      · have hcond : (!dev.is_reg && !dev.is_blk) = false := by
          rcases hty with h | h <;> simp [h]
        cases hres : (metadata_check dev fs n).res with
        | error m =>
            have hc : (check dev fs n).res = Except.error m := by
              unfold check; simp [hst, hcond, hres]
            have he : (check_with_exception_handling dev fs n).exit = 1 := by
              unfold check_with_exception_handling; simp [hc]
            rw [he]
            exact ⟨Or.inr rfl, by simp [hres]⟩
        | ok err =>
            have hc : (check dev fs n).res =
                Except.ok (if err = error_state.NO_ERROR then 0 else 1) := by
              unfold check; simp [hst, hcond, hres]
            have he : (check_with_exception_handling dev fs n).exit =
                (if err = error_state.NO_ERROR then 0 else 1) := by
              unfold check_with_exception_handling; simp [hc]
            cases err with
            | NO_ERROR =>
                rw [he]
                refine ⟨Or.inl (by simp), ?_⟩
                simp only [if_pos rfl]
                constructor
                · intro _
                  exact ⟨by trivial, hty,
                    ⟨error_state.NO_ERROR, by trivial, run_success_no_error fs⟩⟩
                · intro _; rfl
            | NON_FATAL => exact absurd hres (metadata_check_res_ne_nf dev fs n)
            | FATAL =>
                rw [he]
                refine ⟨Or.inr (by simp), ?_⟩
                simp [hres, run_success_fatal]
      · have h1 : dev.is_reg = false := by
          cases h : dev.is_reg
          · rfl
          · exact absurd (Or.inl h) hty
        have h2 : dev.is_blk = false := by
          cases h : dev.is_blk
          · rfl
          · exact absurd (Or.inr h) hty
        have hc : (check dev fs n).res =
            Except.error (dev.path ++ ": " ++ "Not a block device or regular file") := by
          unfold check; simp [hst, h1, h2]
        have he : (check_with_exception_handling dev fs n).exit = 1 := by
          unfold check_with_exception_handling; simp [hc]
        rw [he]
        refine ⟨Or.inr rfl, ?_⟩
        constructor
        · intro h; exact absurd h (by simp)
        · rintro ⟨_, hty', _⟩; exact absurd hty' hty

/-- C1 witness: the clean input with the default flags succeeds with exit
code 0. -/
theorem exit_code_matches_success_policy_witness :
    (check_with_exception_handling dev_clean default_flags false).exit = 0 := by
  exact (exit_code_matches_success_policy dev_clean default_flags false).2.mpr
    ⟨rfl, Or.inl rfl, ⟨error_state.NO_ERROR, rfl, rfl⟩⟩

/-- C7: clear_needs_check runs exactly when the run is successful under the
active skip-nonfatal policy, clear_needs_check_on_success is set and the
superblock's NEEDS_CHECK flag was set; when it runs, block 0 afterwards holds
the superblock with only NEEDS_CHECK cleared and the checksum recomputed —
every other field unchanged — and when it does not run, block 0 is
untouched. -/
theorem clear_needs_check_exactly_on_success (dev : device) (fs : flags)
    (n : Bool) :
    ((check dev fs n).cleared = true ↔
      (dev.stat_error = none ∧ (dev.is_reg = true ∨ dev.is_blk = true) ∧
       (∃ err, (metadata_check dev fs n).res = Except.ok err ∧
          run_success fs err = true) ∧
       fs.clear_needs_check_on_success = true ∧
       dev.sb.flags_needs_check = true)) ∧
    ((check dev fs n).cleared = true →
      (check dev fs n).sb_after = clear_needs_check dev.sb) ∧
    ((check dev fs n).cleared = false →
      (check dev fs n).sb_after = dev.sb) ∧
    (∀ sb : superblock,
      (clear_needs_check sb).flags_needs_check = false ∧
      (clear_needs_check sb).csum =
        sb_checksum { sb with flags_needs_check := false } ∧
      (clear_needs_check sb).magic = sb.magic ∧
      (clear_needs_check sb).version = sb.version ∧
      (clear_needs_check sb).other_flags = sb.other_flags ∧
      (clear_needs_check sb).mapping_root = sb.mapping_root ∧
      (clear_needs_check sb).hint_root = sb.hint_root ∧
      (clear_needs_check sb).discard_root = sb.discard_root ∧
      (clear_needs_check sb).dirty_root = sb.dirty_root ∧
      (clear_needs_check sb).cache_blocks = sb.cache_blocks ∧
      (clear_needs_check sb).discard_nr_blocks = sb.discard_nr_blocks ∧
      (clear_needs_check sb).policy_hint_size = sb.policy_hint_size) := by
  refine ⟨?_, ?_, ?_, ?_⟩
  · rw [check_cleared_spec]
    cases hst : dev.stat_error with
    | some m => simp
    | none =>
        by_cases hcond : (!dev.is_reg && !dev.is_blk) = true
        · have h1 : dev.is_reg = false := by
            revert hcond; cases dev.is_reg <;> simp
          have h2 : dev.is_blk = false := by
            revert hcond; cases dev.is_blk <;> cases dev.is_reg <;> simp
          simp [hcond, h1, h2]
        · have hty : dev.is_reg = true ∨ dev.is_blk = true := by
            revert hcond; cases dev.is_reg <;> cases dev.is_blk <;> simp
          simp only [hcond, Bool.false_eq_true, if_false, if_neg,
            Bool.not_eq_true]
          cases hres : (metadata_check dev fs n).res with
          | error m => simp [hres]
          | ok err =>
              simp only [Bool.and_eq_true]
              constructor
              · rintro ⟨⟨hsucc, hclear⟩, hneeds⟩
                have herr : err = error_state.NO_ERROR :=
                  success_imp_no_error dev fs n err hres hsucc
                have hshape := ok_no_error_shape dev fs n (herr ▸ hres)
                have hnq : (metadata_check dev fs n).needs_check_set =
                    dev.sb.flags_needs_check := by
                  rw [metadata_check_needs_spec]
                  simp [hshape.1, hshape.2]
                exact ⟨by trivial, hty, ⟨err, by trivial, hsucc⟩, hclear,
                  hnq.symm.trans hneeds⟩
              · rintro ⟨-, -, ⟨err', hres', hsucc'⟩, hclear, hflag⟩
                have herr' : err' = err := (Except.ok.inj hres').symm
                subst herr'
                have herr : err' = error_state.NO_ERROR :=
                  success_imp_no_error dev fs n err' hres hsucc'
                have hshape := ok_no_error_shape dev fs n (herr ▸ hres)
                have hnq : (metadata_check dev fs n).needs_check_set =
                    dev.sb.flags_needs_check := by
                  rw [metadata_check_needs_spec]
                  simp [hshape.1, hshape.2]
                exact ⟨⟨hsucc', hclear⟩, hnq.trans hflag⟩
  · intro h
    rw [check_sb_after_spec, if_pos h]
  · intro h
    rw [check_sb_after_spec, if_neg (by simp [h])]
  · intro sb
    exact ⟨rfl, rfl, rfl, rfl, rfl, rfl, rfl, rfl, rfl, rfl, rfl, rfl⟩

/-- C7 witness: the clean input with NEEDS_CHECK set run with
clear_needs_check_on_success: the flag-clearing path runs and block 0 ends
with only NEEDS_CHECK cleared and the checksum recomputed. -/
theorem clear_needs_check_exactly_on_success_witness :
    (check dev_clean fs_clear false).cleared = true ∧
    (check dev_clean fs_clear false).sb_after = clear_needs_check sb_demo := by
  have h := clear_needs_check_exactly_on_success dev_clean fs_clear false
  have hcl : (check dev_clean fs_clear false).cleared = true :=
    h.1.mpr ⟨rfl, Or.inl rfl,
      ⟨error_state.NO_ERROR, rfl, rfl⟩, rfl, rfl⟩
  exact ⟨hcl, h.2.1 hcl⟩

/-- C8: an exception escaping check — a stat failure, a path that is neither a
regular file nor a block device, or an I/O error propagating out of the
mapping walk — is caught at check_with_exception_handling and mapped to exit
code 1, with the message appended to stderr exactly when quiet is unset. -/
theorem exceptions_exit_one (dev : device) (fs : flags) (n : Bool) :
    (∀ m, (check dev fs n).res = Except.error m →
      (check_with_exception_handling dev fs n).exit = 1 ∧
      (check_with_exception_handling dev fs n).stderr =
        (check dev fs n).stderr ++ (if fs.quiet then [] else [m])) ∧
    (∀ m, dev.stat_error = some m → (check dev fs n).res = Except.error m) ∧
    (dev.stat_error = none → dev.is_reg = false → dev.is_blk = false →
      (check dev fs n).res =
        Except.error (dev.path ++ ": " ++ "Not a block device or regular file")) ∧
    (∀ m, dev.stat_error = none → (dev.is_reg = true ∨ dev.is_blk = true) →
      fs.check_mappings = true → ¬ dev.file_length < MD_BLOCK_SIZE →
      dev.sb_damage = [] → dev.mapping_walk_error = some m →
      (check dev fs n).res = Except.error m) := by
  refine ⟨?_, ?_, ?_, ?_⟩
  · intro m h
    unfold check_with_exception_handling
    simp [h]
  · intro m h
    unfold check
    simp [h]
  · intro hst h1 h2
    unfold check
    simp [hst, h1, h2]
  · intro m hst hty hm hlen hds hmw
    have hres : (metadata_check dev fs n).res = Except.error m := by
      rw [metadata_check_res_spec]
      simp [hlen, hds, hm, hmw]
    have hcond : (!dev.is_reg && !dev.is_blk) = false := by
      rcases hty with h | h <;> simp [h]
    unfold check
    simp [hst, hcond, hres]

/-- C8 witness: a path whose stat fails: check throws, the boundary maps it to
exit 1 and prints the message. -/
theorem exceptions_exit_one_witness :
    (check dev_stat_fail default_flags false).res =
      Except.error "meta.bin: No such file or directory" ∧
    (check_with_exception_handling dev_stat_fail default_flags false).exit = 1 ∧
    (check_with_exception_handling dev_stat_fail default_flags false).stderr =
      ["meta.bin: No such file or directory"] := by
  have h := exceptions_exit_one dev_stat_fail default_flags false
  have hr := h.2.1 "meta.bin: No such file or directory" rfl
  have hb := h.1 "meta.bin: No such file or directory" hr
  refine ⟨hr, hb.1, ?_⟩
  rw [hb.2]
  rfl

end CacheCheck
